import Mathlib

/-!
Shallow embedding of `src/task_1.py`, a four-stage pipeline that fetches
historical currency exchange rates from the PrivatBank API for a range of
recent dates, filters them to a currency set, and reshapes the result.

Modelling conventions:
* Calendar dates are proleptic-Gregorian ordinals (`Int`), exactly as CPython's
  `datetime.date` stores them; `date.today()` becomes an explicit `today`
  parameter, and `date - timedelta(days=i)` is ordinal subtraction.
* `strftime` with the format `%d.%m.%Y` is embedded as `dateStrftimePB`,
  following CPython's ordinal-to-(year, month, day) conversion `_ord2ymd`.
* The network is an environment `net : Request → NetBehavior` giving, for each
  outgoing request, either an HTTP response (status plus parsed JSON body) or a
  transport-level `aiohttp.ClientError`.  The orchestrator returns the list of
  requests it actually issued (its trace) next to its result.
* Python dicts holding the JSON response are records with an `extraFields`
  association list for the keys the program never touches; the dict built by
  the reshaper is an insertion-ordered association list with Python's
  assignment semantics (`dictInsert`).
* Raised exceptions become `Except` errors: `PBRequestError` keeps the Python
  exception's `args` tuple as a list of strings.
-/

/-- `EXCHANGE_API_URL` from the source. -/
def EXCHANGE_API_URL : String := "https://api.privatbank.ua/p24api/exchange_rates"

/-- `PB_API_DATE_FORMAT` from the source. -/
def PB_API_DATE_FORMAT : String := "%d.%m.%Y"

/-- `DEFAULT_CURRENCY_LIST` from the source. -/
def DEFAULT_CURRENCY_LIST : List String := ["USD", "EUR"]

/-- A rate as it appears in the reshaped output: either the numeric rate from
the response or the string sentinel left by `dict.get(key, "unknown")`. -/
inductive RateValue where
  | num (r : Rat)
  | unknown
deriving DecidableEq

/-- One element of the `exchangeRate` array of the API response: a currency
code, optional `saleRate` / `purchaseRate` fields, and the remaining JSON keys
(`baseCurrency`, `saleRateNB`, ...) the program never reads. -/
structure RateEntry where
  currency : String
  saleRate : Option Rat
  purchaseRate : Option Rat
  extraFields : List (String × String)
deriving DecidableEq

/-- The parsed JSON body of one API response: the `date` string, the
`exchangeRate` array, and the remaining keys (`bank`, `baseCurrency`, ...) the
program never touches. -/
structure ExchangeInfo where
  date : String
  exchangeRate : List RateEntry
  extraFields : List (String × String)
deriving DecidableEq

/-- The `{sale, purchase}` record the reshaper builds for one currency. -/
structure RateRecord where
  sale : RateValue
  purchase : RateValue
deriving DecidableEq

/-- The Python exception class `PBRequestError`; `args` is the tuple of
constructor arguments of the raised exception. -/
structure PBRequestError where
  args : List String
deriving DecidableEq

/-- What the environment does with one HTTP GET: either a response with a
status code and parsed body, or an `aiohttp.ClientError` whose `str` is
`msg`. -/
inductive NetBehavior where
  | respond (status : Nat) (body : ExchangeInfo)
  | clientError (msg : String)
deriving DecidableEq

/-- One outgoing HTTP GET request: target URL and query parameters. -/
structure Request where
  url : String
  params : List (String × String)
deriving DecidableEq

/-- Python `repr` of a string (single quotes), as used when a dict is
interpolated into an f-string. -/
def pyStrRepr (s : String) : String := "\x27" ++ s ++ "\x27"

/-- Python `repr` of the `params` dict, as interpolated into the
`PBRequestError` message by the f-string in `get_request_to_pb`. -/
def paramsRepr (params : List (String × String)) : String :=
  "\x7b" ++ String.intercalate ", " (params.map (fun p => pyStrRepr p.1 ++ ": " ++ pyStrRepr p.2)) ++ "\x7d"

/-- `get_request_to_pb(url, params)` under environment behaviour `net`:
raises `PBRequestError` with the status/url/params message when the response
status is not 200, returns the parsed body on 200, and on a transport
`ClientError` raises `PBRequestError('Connection error: <url>', str(error))`. -/
def get_request_to_pb (url : String) (params : List (String × String)) (net : NetBehavior) :
    Except PBRequestError ExchangeInfo :=
  match net with
  | .respond status body =>
      if status ≠ 200 then
        .error ⟨["Request status: " ++ toString status ++ ". Url: " ++ url ++ ", params: " ++ paramsRepr params]⟩
      else
        .ok body
  | .clientError msg => .error ⟨["Connection error: " ++ url, msg]⟩

/-- Truthiness of the `additional_currency_list` argument (Python `if lst:`):
`None` and the empty list are falsy. -/
def pyTruthy : Option (List String) → Bool
  | none => false
  | some l => !l.isEmpty

/-- `filter_exchange_info_by_currency` from the source: build
`currency_list = DEFAULT_CURRENCY_LIST.copy()` extended by the additional list
when it is truthy, then replace the `exchangeRate` entry by the sublist of
entries whose `currency` is in `currency_list`. -/
def filter_exchange_info_by_currency (currency_exchange_info : ExchangeInfo)
    (additional_currency_list : Option (List String)) : ExchangeInfo :=
  let currency_list :=
    if pyTruthy additional_currency_list then
      DEFAULT_CURRENCY_LIST ++ additional_currency_list.getD []
    else
      DEFAULT_CURRENCY_LIST
  { currency_exchange_info with
      exchangeRate := currency_exchange_info.exchangeRate.filter
        (fun value => currency_list.contains value.currency) }

/-- Store-level view of `filter_exchange_info_by_currency`, making the Python
in-place mutation explicit: the heap is a list of `ExchangeInfo` objects
indexed by reference; the call overwrites the object at reference `i` and
returns the same reference. -/
def filterExchangeInfoInPlace (heap : List ExchangeInfo) (i : Nat)
    (additional_currency_list : Option (List String)) : List ExchangeInfo × Nat :=
  match heap[i]? with
  | some info => (heap.set i (filter_exchange_info_by_currency info additional_currency_list), i)
  | none => (heap, i)

/-- Python dict assignment `d[k] = v` on an insertion-ordered association
list: an existing key keeps its position and gets the new value, a new key is
appended at the end. -/
def dictInsert {α : Type} (d : List (String × α)) (k : String) (v : α) : List (String × α) :=
  if d.any (fun p => p.1 == k) then
    d.map (fun p => if p.1 == k then (k, v) else p)
  else
    d ++ [(k, v)]

/-- Python dict lookup `d[k]` (as an `Option`): value of the first — hence
only — entry with key `k`. -/
def lookupDict {α : Type} (d : List (String × α)) (k : String) : Option α :=
  (d.find? (fun p => p.1 == k)).map Prod.snd

/-- `value.get('saleRate', 'unknown')` / `value.get('purchaseRate', 'unknown')`:
the numeric rate when the key is present, the `'unknown'` sentinel otherwise. -/
def pyGetRate : Option Rat → RateValue
  | some r => .num r
  | none => .unknown

/-- The `{sale, purchase}` record the reshaper builds from one rate entry. -/
def mkRateRecord (value : RateEntry) : RateRecord :=
  ⟨pyGetRate value.saleRate, pyGetRate value.purchaseRate⟩

/-- `reformat_currency_exchange_info` from the source: fold over the
`exchangeRate` list building `info_by_date[value['currency']] = {...}`, then
return the single-entry dict `{info['date']: info_by_date}` (modelled as the
pair of the date key and the inner dict). -/
def reformat_currency_exchange_info (currency_exchange_info : ExchangeInfo) :
    String × List (String × RateRecord) :=
  let info_by_date := currency_exchange_info.exchangeRate.foldl
    (fun acc value => dictInsert acc value.currency (mkRateRecord value)) []
  (currency_exchange_info.date, info_by_date)

/-- The list `[date.today() - timedelta(days=i) for i in range(1, days_offset + 1)]`
followed by `.reverse()`, over date ordinals. -/
def dateRange (today : Int) (days_offset : Int) : List Int :=
  (((List.range days_offset.toNat).map (fun (i : Nat) => today - ((i : Int) + 1)))).reverse

/-- `_DAYS_IN_MONTH` of CPython's `datetime` (index 0 unused). -/
def DAYS_IN_MONTH : List Nat := [0, 31, 28, 31, 30, 31, 30, 31, 31, 30, 31, 30, 31]

/-- `_DAYS_BEFORE_MONTH` of CPython's `datetime` (index 0 unused). -/
def DAYS_BEFORE_MONTH : List Nat := [0, 0, 31, 59, 90, 120, 151, 181, 212, 243, 273, 304, 334]

/-- CPython's `_ord2ymd`: proleptic-Gregorian ordinal (day 1 = 01.01.0001) to
(year, month, day). -/
def fromOrdinal (ordinal : Nat) : Nat × Nat × Nat :=
  let n := ordinal - 1
  let n400 := n / 146097
  let n := n % 146097
  let n100 := n / 36524
  let n := n % 36524
  let n4 := n / 1461
  let n := n % 1461
  let n1 := n / 365
  let n := n % 365
  let year := n400 * 400 + n100 * 100 + n4 * 4 + n1 + 1
  if n1 = 4 ∨ n100 = 4 then
    (year - 1, 12, 31)
  else
    let leap := n1 = 3 ∧ (n4 ≠ 24 ∨ n100 = 3)
    let month := (n + 50) / 32
    let preceding := DAYS_BEFORE_MONTH.getD month 0 + (if 2 < month ∧ leap then 1 else 0)
    if n < preceding then
      let month := month - 1
      let preceding := preceding - (DAYS_IN_MONTH.getD month 0 + (if month = 2 ∧ leap then 1 else 0))
      (year, month, n - preceding + 1)
    else
      (year, month, n - preceding + 1)

/-- Zero-pad a number to two digits, as `%d` and `%m` do. -/
def pad2 (n : Nat) : String :=
  if n < 10 then "0" ++ toString n else toString n

/-- `date.strftime(PB_API_DATE_FORMAT)`, i.e. `strftime('%d.%m.%Y')`, on a date
given by its ordinal: `DD.MM.YYYY` with zero-padded day and month. -/
def dateStrftimePB (ordinal : Int) : String :=
  let ymd := fromOrdinal ordinal.toNat
  pad2 ymd.2.2 ++ "." ++ pad2 ymd.2.1 ++ "." ++ toString ymd.1

/-- The request the loop body sends for one date:
`get_request_to_pb(EXCHANGE_API_URL, {'date': date_to_retrieve.strftime(PB_API_DATE_FORMAT)})`. -/
def mkRequest (date_to_retrieve : Int) : Request :=
  ⟨EXCHANGE_API_URL, [("date", dateStrftimePB date_to_retrieve)]⟩

/-- The `for date_to_retrieve in date_range:` loop of
`get_currency_exchange_info_for_period`: fetch, filter, reformat and append
per date; the first raised `PBRequestError` aborts the loop.  Returns the
result (or first error) together with the trace of requests issued. -/
def fetchLoop (date_range : List Int) (currency_list : Option (List String))
    (net : Request → NetBehavior) :
    Except PBRequestError (List (String × List (String × RateRecord))) × List Request :=
  match date_range with
  | [] => (.ok [], [])
  | date_to_retrieve :: rest =>
      let req := mkRequest date_to_retrieve
      match get_request_to_pb req.url req.params (net req) with
      | .error e => (.error e, [req])
      | .ok info_per_day =>
          let filtered_info := filter_exchange_info_by_currency info_per_day currency_list
          let reshaped := reformat_currency_exchange_info filtered_info
          match fetchLoop rest currency_list net with
          | (.ok results, reqs) => (.ok (reshaped :: results), req :: reqs)
          | (.error e, reqs) => (.error e, req :: reqs)

/-- The two ways the pipeline can fail: the `ValueError` raised by the offset
validation, or a `PBRequestError` propagated from the fetcher. -/
inductive PipelineError where
  | valueError (msg : String)
  | pbRequestError (e : PBRequestError)
deriving DecidableEq

/-- The message of the `ValueError` raised for an out-of-range offset. -/
def INVALID_OFFSET_MESSAGE : String :=
  "Incorrect offset value. Please choose value from 1 to 10."

/-- `get_currency_exchange_info_for_period(days_offset, currency_list)` with
the implicit inputs made explicit: `today` is `date.today()` as an ordinal and
`net` is the network environment.  Returns the pipeline result (or the error
that escaped) together with the trace of HTTP requests issued. -/
def get_currency_exchange_info_for_period (days_offset : Int)
    (currency_list : Option (List String)) (today : Int) (net : Request → NetBehavior) :
    Except PipelineError (List (String × List (String × RateRecord))) × List Request :=
  if days_offset > 10 ∨ days_offset ≤ 0 then
    (.error (.valueError INVALID_OFFSET_MESSAGE), [])
  else
    match fetchLoop (dateRange today days_offset) currency_list net with
    | (.ok results, reqs) => (.ok results, reqs)
    | (.error e, reqs) => (.error (.pbRequestError e), reqs)

/-! ### Helper lemmas: the insertion-ordered dict -/

lemma lookupDict_nil {α : Type} (k : String) : lookupDict ([] : List (String × α)) k = none := rfl

lemma lookupDict_cons {α : Type} (a : String × α) (d : List (String × α)) (k : String) :
    lookupDict (a :: d) k = if a.1 = k then some a.2 else lookupDict d k := by
  by_cases h : a.1 = k
  · simp [lookupDict, List.find?_cons_of_pos, h]
  · simp [lookupDict, List.find?_cons_of_neg, h]

lemma lookupDict_map_update {α : Type} (d : List (String × α)) (k c : String) (v : α) :
    lookupDict (d.map (fun p => if p.1 == k then (k, v) else p)) c =
      if c = k then (if d.any (fun p => p.1 == k) then some v else none)
      else lookupDict d c := by
  induction d with
  | nil => simp [lookupDict_nil]
  | cons a d ih =>
      simp only [beq_iff_eq] at ih ⊢
      by_cases ha : a.1 = k
      · by_cases hc : c = k
        · simp [ha, hc, lookupDict_cons]
        · have hkc : ¬ k = c := fun h => hc h.symm
          simp [ha, hc, hkc, lookupDict_cons, ih]
      · by_cases hc : c = k
        · subst hc
          have ha3 : (a.1 == c) = false := by simpa using ha
          simp only [List.map_cons, lookupDict_cons, List.any_cons, ha3, Bool.false_or,
            if_neg ha, ih, if_pos rfl]
        · simp [ha, hc, lookupDict_cons, ih]

lemma lookupDict_append_single {α : Type} (d : List (String × α)) (k c : String) (v : α)
    (h : d.any (fun p => p.1 == k) = false) :
    lookupDict (d ++ [(k, v)]) c = if c = k then some v else lookupDict d c := by
  induction d with
  | nil =>
      simp only [List.nil_append, lookupDict_cons, lookupDict_nil]
      by_cases hc : c = k
      · simp [hc]
      · rw [if_neg (fun h2 => hc h2.symm), if_neg hc]
  | cons a d ih =>
      simp only [List.any_cons, Bool.or_eq_false_iff] at h
      obtain ⟨ha, hd⟩ := h
      have ha2 : ¬ a.1 = k := by simpa using ha
      by_cases hc : c = k
      · subst hc
        simp [lookupDict_cons, ha2, ih hd]
      · simp [lookupDict_cons, ih hd, hc]

lemma lookupDict_dictInsert {α : Type} (d : List (String × α)) (k c : String) (v : α) :
    lookupDict (dictInsert d k v) c = if c = k then some v else lookupDict d c := by
  unfold dictInsert
  by_cases h : d.any (fun p => p.1 == k)
  · rw [if_pos h, lookupDict_map_update, h]
    simp
  · rw [if_neg h, lookupDict_append_single _ _ _ _ (Bool.eq_false_iff.mpr h)]

/-! ### Helper lemmas: the reshaper's fold -/

lemma lookupDict_foldl_insert (l : List RateEntry) (acc : List (String × RateRecord)) (c : String) :
    lookupDict (l.foldl (fun acc value => dictInsert acc value.currency (mkRateRecord value)) acc) c =
      match (l.filter (fun v => v.currency == c)).getLast? with
      | some v => some (mkRateRecord v)
      | none => lookupDict acc c := by
  induction l generalizing acc with
  | nil => simp
  | cons v rest ih =>
      rw [List.foldl_cons, ih, List.filter_cons]
      by_cases hv : v.currency = c
      · simp only [hv, beq_self_eq_true, if_true]
        cases hl : rest.filter (fun w => w.currency == c) with
        | nil => simp [lookupDict_dictInsert, hv]
        | cons b l2 =>
            rw [List.getLast?_cons_cons]
            cases hz : (b :: l2).getLast? with
            | none => simp at hz
            | some z => simp
      · rw [if_neg (by simpa using hv)]
        cases hz : (rest.filter (fun w => w.currency == c)).getLast? with
        | none =>
            have hcv : ¬ c = v.currency := fun h => hv h.symm
            simp [lookupDict_dictInsert, hcv]
        | some z => simp

lemma reformat_lookup (info : ExchangeInfo) (c : String) :
    lookupDict (reformat_currency_exchange_info info).2 c =
      ((info.exchangeRate.filter (fun v => v.currency == c)).getLast?).map mkRateRecord := by
  rw [reformat_currency_exchange_info]
  rw [lookupDict_foldl_insert]
  cases h : (info.exchangeRate.filter (fun v => v.currency == c)).getLast? <;>
    simp [lookupDict_nil]

lemma reformat_keys (info : ExchangeInfo) (c : String) :
    (lookupDict (reformat_currency_exchange_info info).2 c).isSome ↔
      c ∈ info.exchangeRate.map (fun v => v.currency) := by
  rw [reformat_lookup, Option.isSome_map']
  rw [List.getLast?_isSome]
  constructor
  · intro h
    obtain ⟨v, hv⟩ := List.exists_mem_of_ne_nil _ h
    have := List.of_mem_filter hv
    exact List.mem_map.mpr ⟨v, List.mem_of_mem_filter hv, by simpa using this⟩
  · intro h
    obtain ⟨v, hv, hc⟩ := List.mem_map.mp h
    intro hnil
    have : v ∈ info.exchangeRate.filter (fun v => v.currency == c) :=
      List.mem_filter.mpr ⟨hv, by simpa using hc⟩
    simp [hnil] at this

/-! ### Helper lemmas: the date range -/

lemma dateRange_eq (today days_offset : Int) :
    dateRange today days_offset =
      (List.range days_offset.toNat).map
        (fun (j : Nat) => today - (days_offset.toNat : Int) + (j : Int)) := by
  apply List.ext_getElem
  · simp [dateRange]
  · intro i h1 h2
    simp only [dateRange, List.getElem_reverse, List.getElem_map, List.getElem_range,
      List.length_map, List.length_range, List.length_reverse] at h1 h2 ⊢
    omega

lemma dateRange_length (today days_offset : Int) :
    (dateRange today days_offset).length = days_offset.toNat := by
  simp [dateRange]

lemma dateRange_sorted (today days_offset : Int) :
    (dateRange today days_offset).Pairwise (fun a b => a < b) := by
  rw [dateRange_eq]
  exact (List.pairwise_lt_range _).map _ (fun a b h => by omega)

lemma dateRange_getElem (today days_offset : Int) (i : Nat)
    (h : i < (dateRange today days_offset).length) :
    (dateRange today days_offset)[i] = today - (days_offset.toNat : Int) + i := by
  rw [dateRange_length] at h
  simp [dateRange_eq, h]

lemma dateRange_not_mem_today (today days_offset : Int) :
    today ∉ dateRange today days_offset := by
  rw [dateRange_eq]
  intro h
  obtain ⟨j, hj, hjeq⟩ := List.mem_map.mp h
  rw [List.mem_range] at hj
  omega

/-! ### Helper lemmas: the fetch loop -/

lemma fetchLoop_all_ok (date_range : List Int) (currency_list : Option (List String))
    (net : Request → NetBehavior) (body : Int → ExchangeInfo)
    (h : ∀ d ∈ date_range, net (mkRequest d) = .respond 200 (body d)) :
    fetchLoop date_range currency_list net =
      (.ok (date_range.map (fun d =>
          reformat_currency_exchange_info
            (filter_exchange_info_by_currency (body d) currency_list))),
       date_range.map mkRequest) := by
  induction date_range with
  | nil => rfl
  | cons d rest ih =>
      have hd := h d (List.mem_cons_self d rest)
      have hrest : ∀ x ∈ rest, net (mkRequest x) = .respond 200 (body x) :=
        fun x hx => h x (List.mem_cons_of_mem d hx)
      rw [fetchLoop, hd]
      rw [ih hrest]
      simp [get_request_to_pb]

lemma fetchLoop_first_error (pre : List Int) (d : Int) (post : List Int)
    (currency_list : Option (List String)) (net : Request → NetBehavior)
    (body : Int → ExchangeInfo) (e : PBRequestError)
    (hpre : ∀ x ∈ pre, net (mkRequest x) = .respond 200 (body x))
    (he : get_request_to_pb (mkRequest d).url (mkRequest d).params (net (mkRequest d)) = .error e) :
    fetchLoop (pre ++ d :: post) currency_list net =
      (.error e, (pre ++ [d]).map mkRequest) := by
  induction pre with
  | nil =>
      rw [List.nil_append, fetchLoop, he]
      rfl
  | cons x pre2 ih =>
      have hx := hpre x (List.mem_cons_self x pre2)
      have hpre2 : ∀ y ∈ pre2, net (mkRequest y) = .respond 200 (body y) :=
        fun y hy => hpre y (List.mem_cons_of_mem x hy)
      rw [List.cons_append, fetchLoop, hx]
      rw [ih hpre2]
      simp [get_request_to_pb]

lemma fetchLoop_trace_prefix (date_range : List Int) (currency_list : Option (List String))
    (net : Request → NetBehavior) :
    ∃ m, (fetchLoop date_range currency_list net).2 = (date_range.take m).map mkRequest := by
  induction date_range with
  | nil => exact ⟨0, rfl⟩
  | cons d rest ih =>
      rw [fetchLoop]
      cases hres : get_request_to_pb (mkRequest d).url (mkRequest d).params (net (mkRequest d)) with
      | error e => exact ⟨1, by simp⟩
      | ok info =>
          obtain ⟨m, hm⟩ := ih
          cases hrec : fetchLoop rest currency_list net with
          | mk r reqs =>
              rw [hrec] at hm
              cases r with
              | ok results => exact ⟨m + 1, by simp at hm; simp [hm]⟩
              | error e2 => exact ⟨m + 1, by simp at hm; simp [hm]⟩

/-! ### Helper lemmas: the orchestrator -/

lemma period_valid (days_offset : Int) (currency_list : Option (List String)) (today : Int)
    (net : Request → NetBehavior) (h1 : 1 ≤ days_offset) (h2 : days_offset ≤ 10) :
    get_currency_exchange_info_for_period days_offset currency_list today net =
      (match fetchLoop (dateRange today days_offset) currency_list net with
       | (.ok results, reqs) => (.ok results, reqs)
       | (.error e, reqs) => (.error (.pbRequestError e), reqs)) := by
  unfold get_currency_exchange_info_for_period
  rw [if_neg (by omega)]

lemma period_valid_trace (days_offset : Int) (currency_list : Option (List String)) (today : Int)
    (net : Request → NetBehavior) (h1 : 1 ≤ days_offset) (h2 : days_offset ≤ 10) :
    (get_currency_exchange_info_for_period days_offset currency_list today net).2 =
      (fetchLoop (dateRange today days_offset) currency_list net).2 := by
  rw [period_valid days_offset currency_list today net h1 h2]
  cases hres : fetchLoop (dateRange today days_offset) currency_list net with
  | mk r reqs => cases r <;> rfl

/-! ### Claim theorems -/

/-- Claim C1: for every integer offset in [1,10], the date-range builder
produces exactly `offset` distinct dates in strictly increasing chronological
order, the oldest being today minus offset days, the newest today minus one
day, and today itself is never included. -/
theorem claim_C1 (today days_offset : Int) (h1 : 1 ≤ days_offset) (h2 : days_offset ≤ 10) :
    ((dateRange today days_offset).length : Int) = days_offset
    ∧ (dateRange today days_offset).Pairwise (fun a b => a < b)
    ∧ (dateRange today days_offset).Nodup
    ∧ (dateRange today days_offset).head? = some (today - days_offset)
    ∧ (dateRange today days_offset).getLast? = some (today - 1)
    ∧ today ∉ dateRange today days_offset := by
  have hlen := dateRange_length today days_offset
  have h0 : 0 < (dateRange today days_offset).length := by rw [hlen]; omega
  refine ⟨by rw [hlen]; omega, dateRange_sorted _ _,
    ((dateRange_sorted _ _).imp (fun h => ne_of_lt h)), ?_, ?_, dateRange_not_mem_today _ _⟩
  · rw [List.head?_eq_getElem?, List.getElem?_eq_getElem h0,
      dateRange_getElem today days_offset 0 h0]
    exact congrArg some (by omega)
  · have hl : (dateRange today days_offset).length - 1 < (dateRange today days_offset).length := by
      omega
    rw [List.getLast?_eq_getElem?, List.getElem?_eq_getElem hl,
      dateRange_getElem today days_offset _ hl, hlen]
    exact congrArg some (by omega)

/-- Witness for C1 at today = 1000, offset = 3. -/
theorem claim_C1_witness :
    ((dateRange 1000 3).length : Int) = 3
    ∧ (dateRange 1000 3).Pairwise (fun a b => a < b)
    ∧ (dateRange 1000 3).Nodup
    ∧ (dateRange 1000 3).head? = some (1000 - 3)
    ∧ (dateRange 1000 3).getLast? = some (1000 - 1)
    ∧ (1000 : Int) ∉ dateRange 1000 3 :=
  claim_C1 1000 3 (by norm_num) (by norm_num)

/-- Claim C2: for every offset ≤ 0 or > 10, the pipeline fails with the
offset-validation `ValueError` (the spec's `InvalidOffset`) and performs zero
network calls: the request trace is empty. -/
theorem claim_C2 (days_offset : Int) (currency_list : Option (List String)) (today : Int)
    (net : Request → NetBehavior) (h : days_offset ≤ 0 ∨ 10 < days_offset) :
    get_currency_exchange_info_for_period days_offset currency_list today net =
      (.error (.valueError INVALID_OFFSET_MESSAGE), []) := by
  unfold get_currency_exchange_info_for_period
  rw [if_pos h.symm]

/-- Witness for C2 at offset 0 and offset 11. -/
theorem claim_C2_witness :
    get_currency_exchange_info_for_period 0 none 738887 (fun _ => .clientError "refused") =
      (.error (.valueError INVALID_OFFSET_MESSAGE), [])
    ∧ get_currency_exchange_info_for_period 11 (some ["GBP"]) 738887
        (fun _ => .clientError "refused") =
      (.error (.valueError INVALID_OFFSET_MESSAGE), []) :=
  ⟨claim_C2 0 none 738887 _ (Or.inl (by norm_num)),
   claim_C2 11 (some ["GBP"]) 738887 _ (Or.inr (by norm_num))⟩

/-- Claim C4: the currency filter keeps exactly the entries whose currency
code is `USD`, `EUR`, or one of the additional codes, in their original
relative order (stated as equality with `List.filter`, comparing codes with
exact string equality), leaves the other response fields unchanged, and an
empty additional list behaves the same as no additions. -/
theorem claim_C4 (info : ExchangeInfo) (additional : Option (List String)) :
    (filter_exchange_info_by_currency info additional).exchangeRate =
      info.exchangeRate.filter
        (fun v => v.currency == "USD" || v.currency == "EUR" ||
          (additional.getD []).contains v.currency)
    ∧ (filter_exchange_info_by_currency info additional).date = info.date
    ∧ (filter_exchange_info_by_currency info additional).extraFields = info.extraFields
    ∧ filter_exchange_info_by_currency info (some []) =
        filter_exchange_info_by_currency info none := by
  refine ⟨?_, rfl, rfl, rfl⟩
  unfold filter_exchange_info_by_currency
  apply List.filter_congr
  intro v hv
  rw [Bool.eq_iff_iff]
  cases additional with
  | none => simp [pyTruthy, DEFAULT_CURRENCY_LIST]
  | some l =>
      cases l with
      | nil => simp [pyTruthy, DEFAULT_CURRENCY_LIST]
      | cons x xs =>
          simp [pyTruthy, DEFAULT_CURRENCY_LIST, or_assoc]

/-- Claim C5: the reshaper keys its single-entry output by the response's own
date string; every surviving currency code is mapped to a `{sale, purchase}`
record (looking up a code yields the record of the last entry carrying it,
with the `unknown` sentinel substituted for each absent rate rather than the
entry being omitted); and on the spec's concrete example
`{currency: USD, saleRate: 27.5}` with date `01.01.2024` it produces
`{01.01.2024: {USD: {sale: 27.5, purchase: unknown}}}`. -/
theorem claim_C5 (info : ExchangeInfo) :
    (reformat_currency_exchange_info info).1 = info.date
    ∧ (∀ c, lookupDict (reformat_currency_exchange_info info).2 c =
        ((info.exchangeRate.filter (fun v => v.currency == c)).getLast?).map mkRateRecord)
    ∧ (∀ v ∈ info.exchangeRate,
        (lookupDict (reformat_currency_exchange_info info).2 v.currency).isSome)
    ∧ reformat_currency_exchange_info ⟨"01.01.2024", [⟨"USD", some (27.5 : Rat), none, []⟩], []⟩ =
        ("01.01.2024", [("USD", ⟨RateValue.num (27.5 : Rat), RateValue.unknown⟩)]) := by
  refine ⟨rfl, fun c => reformat_lookup info c, ?_, rfl⟩
  intro v hv
  rw [reformat_keys]
  exact List.mem_map.mpr ⟨v, hv, rfl⟩

/-- Witness for C5 at a response whose single entry has no purchase rate. -/
theorem claim_C5_witness :
    (reformat_currency_exchange_info ⟨"01.01.2024", [⟨"USD", some (27.5 : Rat), none, []⟩], []⟩).1 =
      "01.01.2024"
    ∧ (∀ c, lookupDict
        (reformat_currency_exchange_info ⟨"01.01.2024", [⟨"USD", some (27.5 : Rat), none, []⟩], []⟩).2 c =
        ((([⟨"USD", some (27.5 : Rat), none, []⟩] : List RateEntry).filter
            (fun v => v.currency == c)).getLast?).map mkRateRecord)
    ∧ (∀ v ∈ ([⟨"USD", some (27.5 : Rat), none, []⟩] : List RateEntry),
        (lookupDict
          (reformat_currency_exchange_info ⟨"01.01.2024", [⟨"USD", some (27.5 : Rat), none, []⟩], []⟩).2
          v.currency).isSome)
    ∧ reformat_currency_exchange_info ⟨"01.01.2024", [⟨"USD", some (27.5 : Rat), none, []⟩], []⟩ =
        ("01.01.2024", [("USD", ⟨RateValue.num (27.5 : Rat), RateValue.unknown⟩)]) :=
  claim_C5 ⟨"01.01.2024", [⟨"USD", some (27.5 : Rat), none, []⟩], []⟩

/-- Claim C7: the fetcher fails with the status-message `PBRequestError`
(carrying endpoint, parameters, and status code) exactly on a non-success
response status, fails with the `Connection error` `PBRequestError` (carrying
the endpoint and the transport error description) on a transport failure, and
the two failure values are always distinguishable (they can never be equal,
their argument tuples having different arity). -/
theorem claim_C7 (url : String) (params : List (String × String)) (status : Nat)
    (body : ExchangeInfo) (msg : String) (hs : status ≠ 200) :
    get_request_to_pb url params (.respond status body) =
      .error ⟨["Request status: " ++ toString status ++ ". Url: " ++ url ++ ", params: " ++
        paramsRepr params]⟩
    ∧ get_request_to_pb url params (.clientError msg) =
      .error ⟨["Connection error: " ++ url, msg]⟩
    ∧ (∀ (url2 : String) (params2 : List (String × String)) (status2 : Nat) (url3 msg3 : String),
        (⟨["Request status: " ++ toString status2 ++ ". Url: " ++ url2 ++ ", params: " ++
            paramsRepr params2]⟩ : PBRequestError) ≠
          ⟨["Connection error: " ++ url3, msg3]⟩)
    ∧ get_request_to_pb url params (.respond 200 body) = .ok body := by
  refine ⟨?_, rfl, ?_, rfl⟩
  · simp [get_request_to_pb, hs]
  · intro url2 params2 status2 url3 msg3 h
    injection h with h2
    simp at h2

/-- Witness for C7 at status 500 and a timeout transport error. -/
theorem claim_C7_witness :
    get_request_to_pb EXCHANGE_API_URL [("date", "01.01.2024")]
        (.respond 500 ⟨"01.01.2024", [], []⟩) =
      .error ⟨["Request status: " ++ toString 500 ++ ". Url: " ++ EXCHANGE_API_URL ++
        ", params: " ++ paramsRepr [("date", "01.01.2024")]]⟩
    ∧ get_request_to_pb EXCHANGE_API_URL [("date", "01.01.2024")] (.clientError "timeout") =
      .error ⟨["Connection error: " ++ EXCHANGE_API_URL, "timeout"]⟩
    ∧ (∀ (url2 : String) (params2 : List (String × String)) (status2 : Nat) (url3 msg3 : String),
        (⟨["Request status: " ++ toString status2 ++ ". Url: " ++ url2 ++ ", params: " ++
            paramsRepr params2]⟩ : PBRequestError) ≠
          ⟨["Connection error: " ++ url3, msg3]⟩)
    ∧ get_request_to_pb EXCHANGE_API_URL [("date", "01.01.2024")]
        (.respond 200 ⟨"01.01.2024", [], []⟩) = .ok ⟨"01.01.2024", [], []⟩ :=
  claim_C7 EXCHANGE_API_URL [("date", "01.01.2024")] 500 ⟨"01.01.2024", [], []⟩ "timeout"
    (by norm_num)

/-- Claim C9: the currency filter mutates its input in place: in the
store-level semantics the returned reference is the reference passed in, the
object stored there afterwards is the input object with its `exchangeRate`
entry replaced by the filtered list (so the original unfiltered list is no
longer reachable through it), all its other fields are unchanged, and every
other object in the store is untouched. -/
theorem claim_C9 (heap : List ExchangeInfo) (i : Nat) (additional : Option (List String))
    (info : ExchangeInfo) (h : heap[i]? = some info) :
    (filterExchangeInfoInPlace heap i additional).2 = i
    ∧ (filterExchangeInfoInPlace heap i additional).1[i]? =
        some { info with
          exchangeRate := info.exchangeRate.filter
            (fun value =>
              (if pyTruthy additional then DEFAULT_CURRENCY_LIST ++ additional.getD []
               else DEFAULT_CURRENCY_LIST).contains value.currency) }
    ∧ (filter_exchange_info_by_currency info additional).date = info.date
    ∧ (filter_exchange_info_by_currency info additional).extraFields = info.extraFields
    ∧ (∀ j, j ≠ i → (filterExchangeInfoInPlace heap i additional).1[j]? = heap[j]?) := by
  have hlt : i < heap.length := (List.getElem?_eq_some_iff.mp h).1
  unfold filterExchangeInfoInPlace
  rw [h]
  refine ⟨rfl, ?_, rfl, rfl, ?_⟩
  · rw [List.getElem?_set_self hlt]
    rfl
  · intro j hj
    exact List.getElem?_set_ne (fun hij => hj hij.symm)

/-- Witness for C9: a one-object store whose response holds USD and GBP
entries; filtering with no additional list keeps only USD. -/
theorem claim_C9_witness :
    (filterExchangeInfoInPlace
        [⟨"01.01.2024", [⟨"USD", some (27.5 : Rat), none, []⟩,
          ⟨"GBP", some (34 : Rat), some (33 : Rat), []⟩], [("bank", "PB")]⟩] 0 none).2 = 0
    ∧ (filterExchangeInfoInPlace
        [⟨"01.01.2024", [⟨"USD", some (27.5 : Rat), none, []⟩,
          ⟨"GBP", some (34 : Rat), some (33 : Rat), []⟩], [("bank", "PB")]⟩] 0 none).1[0]? =
        some { date := "01.01.2024",
               exchangeRate := ([⟨"USD", some (27.5 : Rat), none, []⟩,
                  ⟨"GBP", some (34 : Rat), some (33 : Rat), []⟩] : List RateEntry).filter
                    (fun value =>
                      (if pyTruthy none then DEFAULT_CURRENCY_LIST ++ (none : Option (List String)).getD []
                       else DEFAULT_CURRENCY_LIST).contains value.currency),
               extraFields := [("bank", "PB")] }
    ∧ (filter_exchange_info_by_currency
        ⟨"01.01.2024", [⟨"USD", some (27.5 : Rat), none, []⟩,
          ⟨"GBP", some (34 : Rat), some (33 : Rat), []⟩], [("bank", "PB")]⟩ none).date = "01.01.2024"
    ∧ (filter_exchange_info_by_currency
        ⟨"01.01.2024", [⟨"USD", some (27.5 : Rat), none, []⟩,
          ⟨"GBP", some (34 : Rat), some (33 : Rat), []⟩], [("bank", "PB")]⟩ none).extraFields =
        [("bank", "PB")]
    ∧ (∀ j, j ≠ 0 →
        (filterExchangeInfoInPlace
          [⟨"01.01.2024", [⟨"USD", some (27.5 : Rat), none, []⟩,
            ⟨"GBP", some (34 : Rat), some (33 : Rat), []⟩], [("bank", "PB")]⟩] 0 none).1[j]? =
          ([⟨"01.01.2024", [⟨"USD", some (27.5 : Rat), none, []⟩,
            ⟨"GBP", some (34 : Rat), some (33 : Rat), []⟩], [("bank", "PB")]⟩] :
              List ExchangeInfo)[j]?) :=
  claim_C9
    [⟨"01.01.2024", [⟨"USD", some (27.5 : Rat), none, []⟩,
      ⟨"GBP", some (34 : Rat), some (33 : Rat), []⟩], [("bank", "PB")]⟩] 0 none
    ⟨"01.01.2024", [⟨"USD", some (27.5 : Rat), none, []⟩,
      ⟨"GBP", some (34 : Rat), some (33 : Rat), []⟩], [("bank", "PB")]⟩ rfl

/-- Claim C10: when the filtered response holds two or more entries with the
same currency code, the reshaper's inner mapping sends that code to the
sale/purchase record of the last such entry in sequence order. -/
theorem claim_C10 (info : ExchangeInfo) (c : String) (v : RateEntry)
    (_hdup : 2 ≤ (info.exchangeRate.filter (fun e => e.currency == c)).length)
    (hlast : (info.exchangeRate.filter (fun e => e.currency == c)).getLast? = some v) :
    lookupDict (reformat_currency_exchange_info info).2 c = some (mkRateRecord v) := by
  rw [reformat_lookup, hlast]
  rfl

/-- Witness for C10: two USD entries; the lookup returns the second entry's
record. -/
theorem claim_C10_witness :
    lookupDict
      (reformat_currency_exchange_info
        ⟨"01.01.2024", [⟨"USD", some (27.5 : Rat), none, []⟩,
          ⟨"USD", some (28 : Rat), some (26 : Rat), []⟩], []⟩).2 "USD" =
      some (mkRateRecord ⟨"USD", some (28 : Rat), some (26 : Rat), []⟩) :=
  claim_C10
    ⟨"01.01.2024", [⟨"USD", some (27.5 : Rat), none, []⟩,
      ⟨"USD", some (28 : Rat), some (26 : Rat), []⟩], []⟩ "USD"
    ⟨"USD", some (28 : Rat), some (26 : Rat), []⟩ (by decide) (by decide)

/-! ### Example environments used by the orchestrator witnesses -/

/-- An example response body for the date with ordinal `d`: USD and GBP
entries under the date string the API echoes back. -/
def pbExampleBody (d : Int) : ExchangeInfo :=
  ⟨dateStrftimePB d,
   [⟨"USD", some (27.5 : Rat), some (27 : Rat), []⟩,
    ⟨"GBP", some (34 : Rat), none, []⟩],
   [("bank", "PB")]⟩

/-- A network that answers every request with status 200 and the example body
for the requested date. -/
def pbNetOk : Request → NetBehavior :=
  fun req => .respond 200
    ⟨(req.params.headD ("date", "")).2,
     [⟨"USD", some (27.5 : Rat), some (27 : Rat), []⟩,
      ⟨"GBP", some (34 : Rat), none, []⟩],
     [("bank", "PB")]⟩

/-- A network that answers status 500 for the date with ordinal 738886
(01.01.2024) and status 200 otherwise. -/
def pbNetFailSecond : Request → NetBehavior :=
  fun req => if req = mkRequest 738886 then .respond 500 (pbExampleBody 738886) else pbNetOk req

/-- Claim C3: under a valid offset the pipeline returns the full result
sequence when the fetch for every date succeeds, and when the fetch of some
date fails after all earlier dates succeeded it aborts at that date: the
result is exactly that failure (propagated unchanged), no partial results are
returned, and the request trace stops at the failing date. -/
theorem claim_C3 (today days_offset : Int) (currency_list : Option (List String))
    (net : Request → NetBehavior) (body : Int → ExchangeInfo)
    (h1 : 1 ≤ days_offset) (h2 : days_offset ≤ 10) :
    ((∀ d ∈ dateRange today days_offset, net (mkRequest d) = .respond 200 (body d)) →
      get_currency_exchange_info_for_period days_offset currency_list today net =
        (.ok ((dateRange today days_offset).map (fun d =>
            reformat_currency_exchange_info
              (filter_exchange_info_by_currency (body d) currency_list))),
         (dateRange today days_offset).map mkRequest))
    ∧ ∀ (pre : List Int) (d : Int) (post : List Int) (e : PBRequestError),
        dateRange today days_offset = pre ++ d :: post →
        (∀ x ∈ pre, net (mkRequest x) = .respond 200 (body x)) →
        get_request_to_pb (mkRequest d).url (mkRequest d).params (net (mkRequest d)) = .error e →
        get_currency_exchange_info_for_period days_offset currency_list today net =
          (.error (.pbRequestError e), (pre ++ [d]).map mkRequest) := by
  constructor
  · intro hok
    rw [period_valid days_offset currency_list today net h1 h2,
      fetchLoop_all_ok _ _ _ body hok]
  · intro pre d post e hsplit hpre he
    rw [period_valid days_offset currency_list today net h1 h2, hsplit,
      fetchLoop_first_error pre d post currency_list net body e hpre he]

/-- Witness for C3: offset 2 at today = 738887 (02.01.2024); an all-success
run returns both days, and a run whose second day answers 500 aborts with
exactly that error after two requests. -/
theorem claim_C3_witness :
    get_currency_exchange_info_for_period 2 none 738887 pbNetOk =
      (.ok ((dateRange 738887 2).map (fun d =>
          reformat_currency_exchange_info
            (filter_exchange_info_by_currency (pbExampleBody d) none))),
       (dateRange 738887 2).map mkRequest)
    ∧ get_currency_exchange_info_for_period 2 none 738887 pbNetFailSecond =
      (.error (.pbRequestError
          ⟨["Request status: 500. Url: https://api.privatbank.ua/p24api/exchange_rates, params: \x7b\x27date\x27: \x2701.01.2024\x27\x7d"]⟩),
       ([(738885 : Int)] ++ [738886]).map mkRequest) :=
  ⟨(claim_C3 738887 2 none pbNetOk pbExampleBody (by norm_num) (by norm_num)).1
      (fun d _ => rfl),
   (claim_C3 738887 2 none pbNetFailSecond pbExampleBody (by norm_num) (by norm_num)).2
      [738885] 738886 [] _ (by decide)
      (by intro x hx; rw [List.mem_singleton] at hx; subst hx; rfl)
      (by rfl)⟩

/-- Claim C6: on a successful run the outer result sequence is the image of
the (strictly increasing, oldest-first) date range, one reshaped result per
date in the same order, and each inner mapping contains exactly the currency
codes present in the filtered response for that date. -/
theorem claim_C6 (today days_offset : Int) (currency_list : Option (List String))
    (net : Request → NetBehavior) (body : Int → ExchangeInfo)
    (h1 : 1 ≤ days_offset) (h2 : days_offset ≤ 10)
    (hok : ∀ d ∈ dateRange today days_offset, net (mkRequest d) = .respond 200 (body d)) :
    (get_currency_exchange_info_for_period days_offset currency_list today net).1 =
      .ok ((dateRange today days_offset).map (fun d =>
        reformat_currency_exchange_info
          (filter_exchange_info_by_currency (body d) currency_list)))
    ∧ (dateRange today days_offset).Pairwise (fun a b => a < b)
    ∧ (∀ (info : ExchangeInfo) (c : String),
        (lookupDict (reformat_currency_exchange_info info).2 c).isSome ↔
          c ∈ info.exchangeRate.map (fun v => v.currency)) := by
  refine ⟨?_, dateRange_sorted _ _, fun info c => reformat_keys info c⟩
  rw [period_valid days_offset currency_list today net h1 h2,
    fetchLoop_all_ok _ _ _ body hok]

/-- Witness for C6 at offset 2, today = 738887, all dates succeeding. -/
theorem claim_C6_witness :
    (get_currency_exchange_info_for_period 2 none 738887 pbNetOk).1 =
      .ok ((dateRange 738887 2).map (fun d =>
        reformat_currency_exchange_info
          (filter_exchange_info_by_currency (pbExampleBody d) none)))
    ∧ (dateRange 738887 2).Pairwise (fun a b => a < b)
    ∧ (∀ (info : ExchangeInfo) (c : String),
        (lookupDict (reformat_currency_exchange_info info).2 c).isSome ↔
          c ∈ info.exchangeRate.map (fun v => v.currency)) :=
  claim_C6 738887 2 none pbNetOk pbExampleBody (by norm_num) (by norm_num) (fun d _ => rfl)

/-- Claim C8: every request the pipeline can ever issue targets the fixed
endpoint with the single query parameter `date` holding the request's date
formatted by `dateStrftimePB` (`DD.MM.YYYY`): the trace is always a prefix of
the date range's requests, and on an all-success run it is exactly one such
request per date of the range. -/
theorem claim_C8 (today days_offset : Int) (currency_list : Option (List String))
    (net : Request → NetBehavior) (body : Int → ExchangeInfo)
    (h1 : 1 ≤ days_offset) (h2 : days_offset ≤ 10) :
    (∀ d : Int, mkRequest d = ⟨EXCHANGE_API_URL, [("date", dateStrftimePB d)]⟩)
    ∧ (∃ m, (get_currency_exchange_info_for_period days_offset currency_list today net).2 =
        ((dateRange today days_offset).take m).map mkRequest)
    ∧ ((∀ d ∈ dateRange today days_offset, net (mkRequest d) = .respond 200 (body d)) →
        (get_currency_exchange_info_for_period days_offset currency_list today net).2 =
          (dateRange today days_offset).map mkRequest) := by
  refine ⟨fun d => rfl, ?_, ?_⟩
  · rw [period_valid_trace days_offset currency_list today net h1 h2]
    exact fetchLoop_trace_prefix _ _ _
  · intro hok
    rw [period_valid days_offset currency_list today net h1 h2,
      fetchLoop_all_ok _ _ _ body hok]

/-- Witness for C8 at offset 2, today = 738887: the two issued requests carry
the `date` parameters `31.12.2023` and `01.01.2024`. -/
theorem claim_C8_witness :
    ((∀ d : Int, mkRequest d = ⟨EXCHANGE_API_URL, [("date", dateStrftimePB d)]⟩)
     ∧ (∃ m, (get_currency_exchange_info_for_period 2 none 738887 pbNetOk).2 =
          ((dateRange 738887 2).take m).map mkRequest)
     ∧ ((∀ d ∈ dateRange 738887 2, pbNetOk (mkRequest d) = .respond 200 (pbExampleBody d)) →
          (get_currency_exchange_info_for_period 2 none 738887 pbNetOk).2 =
            (dateRange 738887 2).map mkRequest))
    ∧ (dateRange 738887 2).map mkRequest =
        [⟨EXCHANGE_API_URL, [("date", "31.12.2023")]⟩,
         ⟨EXCHANGE_API_URL, [("date", "01.01.2024")]⟩] :=
  ⟨claim_C8 738887 2 none pbNetOk pbExampleBody (by norm_num) (by norm_num), by decide⟩
